import Mathlib

/-!
Verification of the chat-completion orchestration layer (ai-chatbot-supabase).

The development shallowly embeds the chat API route handler: the message
codec `formatMessageContent`, the POST and DELETE handlers with their
validation, ownership and conflict-recovery paths, the Stream Multiplexer
(`StreamData`) trace, the step-bounded generation loop, and the
`createDocument` and `requestSuggestions` tool execute functions.
External collaborators (auth provider, relational store, LLM provider)
are passed in as explicit oracle inputs so every path of the handler is
an executable function of its inputs.
-/

set_option maxRecDepth 4096

/-! ## JSON values and serialization (model of JSON.stringify) -/

inductive Json where
  | str : String → Json
  | num : Int → Json
  | bool : Bool → Json
  | null : Json
  | arr : List Json → Json
  | obj : List (String × Json) → Json

def escapeChar (c : Char) : String :=
  if c = '"' then "\\\""
  else if c = '\\' then "\\\\"
  else if c = '\n' then "\\n"
  else String.singleton c

def escapeString (s : String) : String :=
  String.join (s.toList.map escapeChar)

mutual

def Json.stringify : Json → String
  | .str s => "\"" ++ escapeString s ++ "\""
  | .num n => toString n
  | .bool b => if b then "true" else "false"
  | .null => "null"
  | .arr xs => "[" ++ Json.stringifyItems xs ++ "]"
  | .obj kvs => "\x7b" ++ Json.stringifyFields kvs ++ "\x7d"

def Json.stringifyItems : List Json → String
  | [] => ""
  | [x] => Json.stringify x
  | x :: y :: rest => Json.stringify x ++ "," ++ Json.stringifyItems (y :: rest)

def Json.stringifyFields : List (String × Json) → String
  | [] => ""
  | [(k, v)] => "\"" ++ escapeString k ++ "\":" ++ Json.stringify v
  | (k, v) :: y :: rest =>
      "\"" ++ escapeString k ++ "\":" ++ Json.stringify v ++ "," ++ Json.stringifyFields (y :: rest)

end

/-! ## Wire messages (model of the ai SDK CoreMessage type) -/

/-- One entry of a tool-role message content: a tool result part.
The `type` field is optional to model a part that omits it (the route
defends against that with `content.type || 'tool-result'`). -/
structure ToolResultPart where
  type : Option String
  toolCallId : String
  toolName : String
  result : Json

/-- One entry of a structured assistant message content. -/
inductive AssistantPart where
  | text (text : String)
  | toolCall (toolCallId : String) (toolName : String) (args : Json)

/-- A core message: role plus role-determined content shape. -/
inductive CoreMessage where
  | user (content : String ⊕ Json)
  | assistant (content : String ⊕ List AssistantPart)
  | tool (content : List ToolResultPart)
  | system (content : String)

/-- JS `a || b` on an optional string field: null, undefined and the
empty string are falsy and select the default. -/
def jsOr (a : Option String) (b : String) : String :=
  match a with
  | none => b
  | some s => if s = "" then b else s

/-- The message codec of the route (`formatMessageContent` in the chat
route handler), translated clause by clause from the source. -/
def formatMessageContent : CoreMessage → String
  | .user (.inl s) => s
  | .user (.inr j) => Json.stringify j
  | .tool parts =>
      Json.stringify (Json.arr (parts.map fun p =>
        Json.obj [("type", Json.str (jsOr p.type "tool-result")),
                  ("toolCallId", Json.str p.toolCallId),
                  ("toolName", Json.str p.toolName),
                  ("result", p.result)]))
  | .assistant (.inl s) =>
      Json.stringify (Json.arr [Json.obj [("type", Json.str "text"), ("text", Json.str s)]])
  | .assistant (.inr parts) =>
      Json.stringify (Json.arr (parts.map fun p =>
        match p with
        | .text t => Json.obj [("type", Json.str "text"), ("text", Json.str t)]
        | .toolCall callId name args =>
            Json.obj [("type", Json.str "tool-call"), ("toolCallId", Json.str callId),
                      ("toolName", Json.str name), ("args", args)]))
  | .system _ => ""

/-- The codec as the spec words it: identical clauses, except that the
`type` of a tool-result element defaults to "tool-result" exactly when
the source part omits it (the spec says "when absent", the source uses
JS truthiness). Used only to compare against `formatMessageContent`. -/
def formatMessageContentSpec : CoreMessage → String
  | .user (.inl s) => s
  | .user (.inr j) => Json.stringify j
  | .tool parts =>
      Json.stringify (Json.arr (parts.map fun p =>
        Json.obj [("type", Json.str (p.type.getD "tool-result")),
                  ("toolCallId", Json.str p.toolCallId),
                  ("toolName", Json.str p.toolName),
                  ("result", p.result)]))
  | .assistant (.inl s) =>
      Json.stringify (Json.arr [Json.obj [("type", Json.str "text"), ("text", Json.str s)]])
  | .assistant (.inr parts) =>
      Json.stringify (Json.arr (parts.map fun p =>
        match p with
        | .text t => Json.obj [("type", Json.str "text"), ("text", Json.str t)]
        | .toolCall callId name args =>
            Json.obj [("type", Json.str "tool-call"), ("toolCallId", Json.str callId),
                      ("toolName", Json.str name), ("args", args)]))
  | .system _ => ""

/-- Well-typedness of a wire message: the ai SDK type of a tool-result
part carries the literal type tag, so a well-typed part never stores an
empty-string `type`; absence (`none`) is allowed. -/
def CoreMessage.wellTypedB : CoreMessage → Bool
  | .tool parts => parts.all fun p => p.type != some ""
  | _ => true

/-! ## Rows, database state and the model registry -/

/-- A Chat row: id plus the owning user. -/
structure ChatRow where
  id : String
  user_id : String
deriving Repr, DecidableEq

/-- A Message row as the route persists it. -/
structure MessageRow where
  id : String
  chat_id : String
  role : String
  content : String
  created_at : String

/-- The chat and message tables visible to one request. -/
structure DB where
  chats : List ChatRow
  messages : List MessageRow

/-- A registered model description. -/
structure ModelDef where
  id : String
  apiIdentifier : String
deriving Repr, DecidableEq

/-- Modelled from the spec: `ai/models.ts` is not under `src/`; the
architecture document lists `gpt-4o` and `gpt-4o-mini` as the registered
models. The handler only consults the `id` fields via `models.find`. -/
def models : List ModelDef :=
  [⟨"gpt-4o", "gpt-4o"⟩, ⟨"gpt-4o-mini", "gpt-4o-mini"⟩]

/-! ## The Stream Multiplexer trace -/

/-- One operation on the `StreamData` multiplexer: an `append` of a typed
event, an `appendMessageAnnotation` of a server message id, or `close`. -/
inductive MuxOp where
  | append (ty : String) (content : String)
  | annot (messageIdFromServer : String)
  | close
deriving Repr, DecidableEq

def MuxOp.isAppend : MuxOp → Bool
  | .append _ _ => true
  | _ => false

def MuxOp.isClose : MuxOp → Bool
  | .close => true
  | _ => false

/-- How many times `close()` was invoked in a trace. -/
def closeCount (tr : List MuxOp) : Nat :=
  (tr.filter MuxOp.isClose).length

/-- Whether some `append` occurs strictly after a `close` in the trace. -/
def appendAfterClose : List MuxOp → Bool
  | [] => false
  | MuxOp.close :: rest => rest.any MuxOp.isAppend || appendAfterClose rest
  | _ :: rest => appendAfterClose rest

/-! ## The POST handler of the chat route -/

/-- Outcome of one handler run: an HTTP response with a body, the
streamed data response of a completed turn, a fall-through that returns
no response, or an exception that escapes the handler. -/
inductive HttpOutcome where
  | response (status : Nat) (body : String)
  | stream
  | noResponse
  | thrown (e : String)
deriving Repr, DecidableEq

/-- The parsed POST request body. -/
structure PostReq where
  id : String
  messages : List CoreMessage
  modelId : String

/-- Oracle inputs standing for the external collaborators of one turn:
the auth provider, the title generator, the race outcome at `saveChat`,
the LLM provider, the events the tools append while streaming, the
(sanitized) response messages handed to `onFinish`, whether the
response-message save fails, and the id/time sources. -/
structure Env where
  authUser : Option String
  genTitle : String
  saveChatConflicts : Bool
  providerFails : Bool
  toolEvents : List (String × String)
  responseMessages : List CoreMessage
  saveResponseFails : Bool
  newMsgId : String
  respIds : Nat → String
  now : String

/-- Result of a POST run: outcome, final state, multiplexer trace and
the number of top-level provider calls made. -/
structure PostResult where
  outcome : HttpOutcome
  db : DB
  trace : List MuxOp
  modelCalls : Nat

def CoreMessage.isUser : CoreMessage → Bool
  | .user _ => true
  | _ => false

def CoreMessage.isAssistant : CoreMessage → Bool
  | .assistant _ => true
  | _ => false

def CoreMessage.roleString : CoreMessage → String
  | .user _ => "user"
  | .assistant _ => "assistant"
  | .tool _ => "tool"
  | .system _ => "system"

/-- Modelled from the spec: `getMostRecentUserMessage` (lib/utils, not
under `src/`) returns the most recent user-role message of the list. -/
def getMostRecentUserMessage (msgs : List CoreMessage) : Option CoreMessage :=
  (msgs.filter CoreMessage.isUser).getLast?

/-- The row the route builds for the incoming user message (a fresh id,
the chat id, the message role, the codec output, the current time). -/
def userMessageRow (env : Env) (chatId : String) (m : CoreMessage) : MessageRow :=
  ⟨env.newMsgId, chatId, m.roleString, formatMessageContent m, env.now⟩

/-- The rows `onFinish` builds from the response messages, one fresh id
per message, in order. -/
def responseRows (env : Env) (chatId : String) : List MessageRow :=
  env.responseMessages.enum.map fun p =>
    ⟨env.respIds p.1, chatId, p.2.roleString, formatMessageContent p.2, env.now⟩

/-- The message annotations `onFinish` pushes: one per assistant response
message, carrying the same server id as the persisted row. -/
def responseAnnots (env : Env) : List MuxOp :=
  (env.responseMessages.enum.filter fun p => p.2.isAssistant).map fun p =>
    MuxOp.annot (env.respIds p.1)

/-- The appends the tools make while the main stream runs. -/
def streamAppends (env : Env) : List MuxOp :=
  env.toolEvents.map fun e => MuxOp.append e.1 e.2

/-- The turn from the point the chat row is settled: persist the user
message, create the `StreamData` multiplexer, run `streamText`. If the
provider call rejects, the outer catch rethrows (the error is not the
chat-id conflict) and `close()` never runs. Otherwise the stream
completes and `onFinish` fires: it appends one message annotation per
assistant response message, attempts the response-message save (failures
are caught and only logged), and then closes the multiplexer. -/
def runTurn (env : Env) (req : PostReq) (db : DB) (userId : String)
    (userMessage : CoreMessage) : PostResult :=
  let db1 : DB := ⟨db.chats, db.messages ++ [userMessageRow env req.id userMessage]⟩
  if env.providerFails then
    ⟨.thrown "provider failure", db1, streamAppends env, 1⟩
  else
    let db2 : DB :=
      if env.saveResponseFails ∨ userId = "" then db1
      else ⟨db1.chats, db1.messages ++ responseRows env req.id⟩
    let tr := streamAppends env ++
      (if userId = "" then [] else responseAnnots env) ++ [MuxOp.close]
    ⟨.stream, db2, tr, 1⟩

/-- The POST handler, translated from the route source. `getUser()`
throws when the auth provider yields no user, so with no session the
handler exits by exception (the subsequent `if (!user) return 401` in
the source is unreachable). Then the model id is validated (404), the
most recent user message extracted (400), the chat looked up: a chat
owned by another user yields 401 before anything is persisted; an absent
chat is created, and if `saveChat` throws the chat-id conflict, the
catch persists the user message under the existing chat and falls
through without a response. -/
def POST (env : Env) (req : PostReq) (db : DB) : PostResult :=
  match env.authUser with
  | none => ⟨.thrown "Unauthorized", db, [], 0⟩
  | some userId =>
    match models.find? fun m => m.id = req.modelId with
    | none => ⟨.response 404 "Model not found", db, [], 0⟩
    | some _ =>
      match getMostRecentUserMessage req.messages with
      | none => ⟨.response 400 "No user message found", db, [], 0⟩
      | some userMessage =>
        match db.chats.find? fun c => c.id = req.id with
        | some chat =>
          if chat.user_id ≠ userId then
            ⟨.response 401 "Unauthorized", db, [], 0⟩
          else
            runTurn env req db userId userMessage
        | none =>
          if env.saveChatConflicts then
            ⟨.noResponse,
             ⟨db.chats, db.messages ++ [userMessageRow env req.id userMessage]⟩,
             [], 0⟩
          else
            runTurn env req ⟨db.chats ++ [⟨req.id, userId⟩], db.messages⟩ userId userMessage

/-! ## The DELETE handler of the chat route -/

/-- Result of a DELETE run. -/
structure DeleteResult where
  outcome : HttpOutcome
  db : DB

/-- Modelled from the spec where the mutation lives outside `src/`:
`deleteChatById` (db/mutations.ts) removes the chat row and, per the
spec, its messages cascade with it. -/
def deleteChatById (db : DB) (chatId : String) : DB :=
  ⟨db.chats.filter fun c => c.id ≠ chatId,
   db.messages.filter fun m => m.chat_id ≠ chatId⟩

/-- The DELETE handler, translated from the route source: missing id
gives 404, `getUser()` throws with no session, an unknown chat gives
404, a chat owned by another user gives 401, otherwise the chat is
deleted and 200 returned. -/
def DELETE (env : Env) (reqId : Option String) (db : DB) : DeleteResult :=
  match reqId with
  | none => ⟨.response 404 "Not Found", db⟩
  | some id =>
    match env.authUser with
    | none => ⟨.thrown "Unauthorized", db⟩
    | some userId =>
      match db.chats.find? fun c => c.id = id with
      | none => ⟨.response 404 "Chat not found", db⟩
      | some chat =>
        if chat.user_id ≠ userId then ⟨.response 401 "Unauthorized", db⟩
        else ⟨.response 200 "Chat deleted", deleteChatById db id⟩

/-! ## The step-bounded generation loop -/

/-- The step bound the route passes to `streamText` (`maxSteps: 5`). -/
def routeMaxSteps : Nat := 5

/-- What the model does in one generation round: request tool calls
(another round follows, fed the tool results) or finish the turn. -/
inductive ModelRound where
  | requestTools
  | finish

/-- Modelled from the spec: the `streamText` step loop lives in the ai
SDK, not under `src/`. Each iteration invokes the model once (one
GENERATE round); a `requestTools` answer starts another round while fuel
remains, a `finish` answer ends the turn. Returns the number of
generate rounds performed. -/
def genRoundsAux (behavior : Nat → ModelRound) : Nat → Nat → Nat
  | 0, done => done
  | fuel + 1, done =>
    match behavior done with
    | .finish => done + 1
    | .requestTools => genRoundsAux behavior fuel (done + 1)

/-- The number of generate rounds of one turn under `maxSteps`. -/
def genRounds (behavior : Nat → ModelRound) (maxSteps : Nat) : Nat :=
  genRoundsAux behavior maxSteps 0

/-! ## The createDocument tool -/

/-- A Document row as `saveDocument` persists it. -/
structure DocumentRow where
  id : String
  title : String
  content : String
  userId : String
deriving Repr, DecidableEq

/-- One element of the nested generation `fullStream`: a text delta or
any other stream part (ignored by the tool loop). -/
inductive StreamDelta where
  | textDelta (textDelta : String)
  | other (ty : String)
deriving Repr, DecidableEq

/-- One observable action of a document tool run: an event appended to
the multiplexer or a document persisted through `saveDocument`. -/
inductive DocAction where
  | emit (ty : String) (content : String)
  | persistDoc (d : DocumentRow)
deriving Repr, DecidableEq

/-- The confirmation payload a document tool returns to the model. -/
structure ToolPayload where
  id : String
  title : String
  content : String
deriving Repr, DecidableEq

/-- The delta-consuming loop of `createDocument`: accumulate each text
delta into the draft and append it as a `text-delta` event; skip every
other stream part. -/
def docStreamLoop (draft : String) (acts : List DocAction) :
    List StreamDelta → String × List DocAction
  | [] => (draft, acts)
  | .textDelta s :: rest =>
      docStreamLoop (draft ++ s) (acts ++ [DocAction.emit "text-delta" s]) rest
  | .other _ :: rest => docStreamLoop draft acts rest

/-- The `createDocument` execute function, translated from the route:
emit `id`, `title`, `clear`; run the nested generation consuming its
full stream; emit `finish`; persist the draft as a Document owned by the
requesting user (the source guards on `user && user.id`); return a fixed
confirmation payload that carries the id and title but not the draft. -/
def createDocumentExecute (userId newId title : String)
    (fullStream : List StreamDelta) : List DocAction × ToolPayload :=
  let startActs := [DocAction.emit "id" newId, DocAction.emit "title" title,
                    DocAction.emit "clear" ""]
  let res := docStreamLoop "" startActs fullStream
  let acts := res.2 ++ [DocAction.emit "finish" ""] ++
    (if userId = "" then [] else [DocAction.persistDoc ⟨newId, title, res.1, userId⟩])
  (acts, ⟨newId, title, "A document was created and is now visible to the user."⟩)

/-! ## The requestSuggestions tool -/

/-- A Document record as `getDocumentById` returns it; `content` is
nullable in the schema. -/
structure DocumentRecord where
  id : String
  title : String
  content : Option String
  created_at : String
deriving Repr, DecidableEq

/-- One element of the nested structured generation stream. -/
structure SuggestionElement where
  originalSentence : String
  suggestedSentence : String
  description : String
deriving Repr, DecidableEq

/-- The in-memory suggestion the tool synthesizes per element. -/
structure SuggestionDraft where
  originalText : String
  suggestedText : String
  description : String
  id : String
  documentId : String
  isResolved : Bool
deriving Repr, DecidableEq

/-- A Suggestion row as `saveSuggestions` persists it. -/
structure SuggestionRow where
  originalText : String
  suggestedText : String
  description : String
  id : String
  documentId : String
  isResolved : Bool
  userId : String
  createdAt : String
  documentCreatedAt : String
deriving Repr, DecidableEq

/-- One observable action of a `requestSuggestions` run: a `suggestion`
event appended to the multiplexer, or the single batch persist. -/
inductive SuggAction where
  | emitSuggestion (s : SuggestionDraft)
  | persistBatch (rows : List SuggestionRow)
deriving Repr, DecidableEq

/-- The payload `requestSuggestions` returns to the model. -/
structure SuggPayload where
  id : String
  title : String
  message : String
deriving Repr, DecidableEq

/-- Model of `generateUUID` (lib/utils, not under `src/`): one fresh
identifier per call, indexed by the call number within the tool run. -/
def genId (n : Nat) : String := "uuid-" ++ toString n

/-- The element-consuming loop of `requestSuggestions`: for each streamed
element, synthesize a draft with a fresh id and `isResolved := false`,
append it as a `suggestion` event immediately, and accumulate it. The
source iterates over every element of the stream; it imposes no count
limit of its own. -/
def suggestionLoop (documentId : String) (k : Nat) (acc : List SuggestionDraft)
    (acts : List SuggAction) : List SuggestionElement → List SuggestionDraft × List SuggAction
  | [] => (acc, acts)
  | e :: rest =>
    let s : SuggestionDraft :=
      ⟨e.originalSentence, e.suggestedSentence, e.description, genId k, documentId, false⟩
    suggestionLoop documentId (k + 1) (acc ++ [s]) (acts ++ [SuggAction.emitSuggestion s]) rest

/-- The `requestSuggestions` execute function, translated from the
route: load the document (an error payload, with no action, if it is
absent or its content is null or empty); consume the element stream via
`suggestionLoop`; persist all accumulated suggestions in one batch
(guarded on `user && user.id`); return a confirmation payload. -/
def requestSuggestionsExecute (userId now documentId : String)
    (doc? : Option DocumentRecord) (elements : List SuggestionElement) :
    List SuggAction × (String ⊕ SuggPayload) :=
  match doc? with
  | none => ([], Sum.inl "Document not found")
  | some document =>
    match document.content with
    | none => ([], Sum.inl "Document not found")
    | some content =>
      if content = "" then ([], Sum.inl "Document not found")
      else
        let res := suggestionLoop documentId 0 [] [] elements
        let rows := res.1.map fun s =>
          SuggestionRow.mk s.originalText s.suggestedText s.description s.id s.documentId
            s.isResolved userId now document.created_at
        let acts := res.2 ++ (if userId = "" then [] else [SuggAction.persistBatch rows])
        (acts, Sum.inr ⟨documentId, document.title, "Suggestions have been added to the document"⟩)

/-! ## Closed forms and concrete inputs used by the theorems -/

/-- The text carried by a stream part, when it is a text delta. -/
def StreamDelta.textOf : StreamDelta → Option String
  | .textDelta s => some s
  | .other _ => none

/-- Concatenation of a list of strings, in order. -/
def joinStrings : List String → String
  | [] => ""
  | s :: rest => s ++ joinStrings rest

/-- Closed form of the drafts `suggestionLoop` accumulates, with fresh
ids starting at call number `k`. -/
def suggestionDraftsFrom (documentId : String) (k : Nat) :
    List SuggestionElement → List SuggestionDraft
  | [] => []
  | e :: rest =>
    ⟨e.originalSentence, e.suggestedSentence, e.description, genId k, documentId, false⟩ ::
      suggestionDraftsFrom documentId (k + 1) rest

/-- The drafts of one `requestSuggestions` run. -/
def suggestionDrafts (documentId : String) (elements : List SuggestionElement) :
    List SuggestionDraft :=
  suggestionDraftsFrom documentId 0 elements

def SuggAction.isEmit : SuggAction → Bool
  | .emitSuggestion _ => true
  | _ => false

/-- A run against an empty store in which `saveChat` hits the chat-id
race: the conflict is raised before the `StreamData` object is created. -/
def conflictEnv : Env :=
  ⟨some "u1", "a title", true, false, [], [], false, "m1", fun _ => "r", "t0"⟩

def conflictReq : PostReq :=
  ⟨"chat-1", [CoreMessage.user (Sum.inl "hello")], "gpt-4o"⟩

/-- A store holding one chat owned by `owner` with one message. -/
def otherOwnerDb : DB :=
  ⟨[⟨"chat-1", "owner"⟩], [⟨"m0", "chat-1", "user", "hi", "t"⟩]⟩

/-- A request from a different authenticated user against that chat. -/
def intruderEnv : Env :=
  ⟨some "intruder", "a title", false, false, [], [], false, "m1", fun _ => "r", "t0"⟩

def intruderReq : PostReq :=
  ⟨"chat-1", [CoreMessage.user (Sum.inl "hello")], "gpt-4o"⟩

/-- A request with an unregistered model id. -/
def badModelEnv : Env :=
  ⟨some "u1", "a title", false, false, [], [], false, "m1", fun _ => "r", "t0"⟩

def badModelReq : PostReq :=
  ⟨"chat-2", [CoreMessage.user (Sum.inl "hello")], "nonexistent"⟩

/-- A conflict run used to exercise the recovery path end to end. -/
def recoveryEnv : Env :=
  ⟨some "u2", "a title", true, false, [], [], false, "m2", fun _ => "r", "t1"⟩

def recoveryReq : PostReq :=
  ⟨"chat-8", [CoreMessage.user (Sum.inl "hi again")], "gpt-4o-mini"⟩

/-- A run with no valid session: the auth provider yields no user. -/
def noSessionEnv : Env :=
  ⟨none, "a title", false, false, [], [], false, "m1", fun _ => "r", "t0"⟩

def noSessionReq : PostReq :=
  ⟨"chat-9", [CoreMessage.user (Sum.inl "hello")], "gpt-4o"⟩

/-- A well-typed tool message whose part omits the `type` tag. -/
def demoToolMsg : CoreMessage :=
  CoreMessage.tool [⟨none, "call-1", "getWeather", Json.null⟩,
                    ⟨some "tool-result", "call-2", "createDocument", Json.str "ok"⟩]

/-- A nested generation stream of two text deltas around another part. -/
def demoStream : List StreamDelta :=
  [StreamDelta.textDelta "Hello ", StreamDelta.other "step-start", StreamDelta.textDelta "world"]

/-- A stored document with nonempty content. -/
def demoDoc : DocumentRecord := ⟨"doc-1", "Essay", some "Some text.", "t0"⟩

/-- Six elements streamed by the structured generation: more than the
five the prompt asks for. -/
def sixElements : List SuggestionElement :=
  [⟨"a1", "b1", "c1"⟩, ⟨"a2", "b2", "c2"⟩, ⟨"a3", "b3", "c3"⟩,
   ⟨"a4", "b4", "c4"⟩, ⟨"a5", "b5", "c5"⟩, ⟨"a6", "b6", "c6"⟩]

/-- Three elements, used by the contract witness. -/
def threeElements : List SuggestionElement :=
  [⟨"a1", "b1", "c1"⟩, ⟨"a2", "b2", "c2"⟩, ⟨"a3", "b3", "c3"⟩]

/-! ## Multiplexer trace lemmas -/

theorem appendAfterClose_cons_notclose (op : MuxOp) (l : List MuxOp)
    (h : op.isClose = false) : appendAfterClose (op :: l) = appendAfterClose l := by
  cases op with
  | append a b => rfl
  | annot a => rfl
  | close => simp [MuxOp.isClose] at h

theorem appendAfterClose_no_close (l : List MuxOp)
    (h : ∀ op ∈ l, op.isClose = false) : appendAfterClose l = false := by
  induction l with
  | nil => rfl
  | cons op rest ih =>
    rw [appendAfterClose_cons_notclose op rest (h op (by simp))]
    exact ih fun x hx => h x (by simp [hx])

theorem appendAfterClose_concat_close (l : List MuxOp)
    (h : ∀ op ∈ l, op.isClose = false) :
    appendAfterClose (l ++ [MuxOp.close]) = false := by
  induction l with
  | nil => rfl
  | cons op rest ih =>
    rw [List.cons_append, appendAfterClose_cons_notclose op _ (h op (by simp))]
    exact ih fun x hx => h x (by simp [hx])

theorem closeCount_nil : closeCount [] = 0 := rfl

theorem closeCount_append (l₁ l₂ : List MuxOp) :
    closeCount (l₁ ++ l₂) = closeCount l₁ + closeCount l₂ := by
  simp [closeCount, List.filter_append]

theorem closeCount_eq_zero (l : List MuxOp)
    (h : ∀ op ∈ l, op.isClose = false) : closeCount l = 0 := by
  simp only [closeCount, List.length_eq_zero, List.filter_eq_nil_iff]
  intro a ha
  simp [h a ha]

theorem streamAppends_not_close (env : Env) :
    ∀ op ∈ streamAppends env, op.isClose = false := by
  intro op hop
  simp only [streamAppends, List.mem_map] at hop
  obtain ⟨e, _, rfl⟩ := hop
  rfl

theorem responseAnnots_not_close (env : Env) :
    ∀ op ∈ responseAnnots env, op.isClose = false := by
  intro op hop
  simp only [responseAnnots, List.mem_map] at hop
  obtain ⟨p, _, rfl⟩ := hop
  rfl

theorem runTurn_mux (env : Env) (req : PostReq) (db : DB) (userId : String)
    (m : CoreMessage) :
    appendAfterClose (runTurn env req db userId m).trace = false ∧
    closeCount (runTurn env req db userId m).trace ≤ 1 ∧
    (closeCount (runTurn env req db userId m).trace = 1 ↔
      (runTurn env req db userId m).outcome = HttpOutcome.stream) := by
  by_cases hp : env.providerFails
  · have ht : (runTurn env req db userId m).trace = streamAppends env := by
      simp [runTurn, hp]
    have ho : (runTurn env req db userId m).outcome = .thrown "provider failure" := by
      simp [runTurn, hp]
    have hz : closeCount (runTurn env req db userId m).trace = 0 := by
      rw [ht]; exact closeCount_eq_zero _ (streamAppends_not_close env)
    refine ⟨?_, ?_, ?_⟩
    · rw [ht]; exact appendAfterClose_no_close _ (streamAppends_not_close env)
    · omega
    · rw [hz, ho]; simp
  · have ht : (runTurn env req db userId m).trace =
        (streamAppends env ++ (if userId = "" then [] else responseAnnots env)) ++
          [MuxOp.close] := by
      simp [runTurn, hp, List.append_assoc]
    have ho : (runTurn env req db userId m).outcome = .stream := by
      simp [runTurn, hp]
    have hnc : ∀ op ∈ streamAppends env ++ (if userId = "" then [] else responseAnnots env),
        op.isClose = false := by
      intro op hop
      rcases List.mem_append.1 hop with h1 | h2
      · exact streamAppends_not_close env op h1
      · rcases em (userId = "") with he | he
        · simp [he] at h2
        · simp only [if_neg he] at h2
          exact responseAnnots_not_close env op h2
    have hc1 : closeCount (runTurn env req db userId m).trace = 1 := by
      rw [ht, closeCount_append, closeCount_eq_zero _ hnc]
      rfl
    refine ⟨?_, ?_, ?_⟩
    · rw [ht]; exact appendAfterClose_concat_close _ hnc
    · omega
    · rw [hc1, ho]; simp

/-- C1 (amended): for every oracle input, request and store, no `append`
ever occurs after `close` on the multiplexer trace, `close()` is invoked
at most once, and it is invoked exactly once precisely on the path where
the turn completes and the handler returns the data-stream response
(this includes the path where the response-message save inside
`onFinish` fails). In particular `close()` is never invoked on the
chat-id-conflict recovery path or when the provider call rejects after
the multiplexer was created. -/
theorem post_mux_close_invariant (env : Env) (req : PostReq) (db : DB) :
    appendAfterClose (POST env req db).trace = false ∧
    closeCount (POST env req db).trace ≤ 1 ∧
    (closeCount (POST env req db).trace = 1 ↔
      (POST env req db).outcome = HttpOutcome.stream) := by
  unfold POST
  cases env.authUser with
  | none => exact ⟨rfl, by simp [closeCount], by simp [closeCount]⟩
  | some userId =>
    cases models.find? fun mo => mo.id = req.modelId with
    | none => exact ⟨rfl, by simp [closeCount], by simp [closeCount]⟩
    | some md =>
      cases getMostRecentUserMessage req.messages with
      | none => exact ⟨rfl, by simp [closeCount], by simp [closeCount]⟩
      | some um =>
        cases db.chats.find? fun c => c.id = req.id with
        | some chat =>
          by_cases hown : chat.user_id ≠ userId
          · simp only [if_pos hown]
            exact ⟨rfl, by simp [closeCount], by simp [closeCount]⟩
          · simp only [if_neg hown]
            exact runTurn_mux env req db userId um
        | none =>
          by_cases hconf : env.saveChatConflicts
          · simp only [if_pos hconf]
            exact ⟨rfl, by simp [closeCount], by simp [closeCount]⟩
          · simp only [if_neg hconf]
            exact runTurn_mux env req _ userId um

/-- C1 counterexample: on the chat-id-conflict recovery path, which the
claim lists among the paths where `close()` is invoked exactly once, the
handler never creates the multiplexer and `close()` is invoked zero
times. -/
theorem post_conflict_never_closes :
    (POST conflictEnv conflictReq ⟨[], []⟩).outcome = HttpOutcome.noResponse ∧
    closeCount (POST conflictEnv conflictReq ⟨[], []⟩).trace = 0 :=
  ⟨rfl, rfl⟩

/-! ## The message codec -/

theorem jsOr_eq_getD (a : Option String) (d : String) (h : a ≠ some "") :
    jsOr a d = a.getD d := by
  cases a with
  | none => rfl
  | some s =>
    have hs : ¬(s = "") := fun e => h (by rw [e])
    simp [jsOr, Option.getD, hs]

/-- C2: the codec is a pure total function (it is a Lean function, so
totality is by construction) and behaves exactly as the claim states:
for every well-typed message it agrees with the clause-by-clause spec
codec — user content unchanged if a plain string else its JSON
serialization; tool content a JSON array of
`(type, toolCallId, toolName, result)` objects with `type` defaulting to
"tool-result" when absent; assistant string content a singleton
`(type:"text")` array; structured assistant content mapped in input
order to text or tool-call objects; any other role the empty string. -/
theorem formatMessageContent_matches_spec (m : CoreMessage)
    (h : m.wellTypedB = true) :
    formatMessageContent m = formatMessageContentSpec m := by
  cases m with
  | user c => cases c <;> rfl
  | assistant c => cases c <;> rfl
  | system s => rfl
  | tool parts =>
    simp only [formatMessageContent, formatMessageContentSpec]
    have hall : ∀ p ∈ parts, p.type ≠ some "" := by
      simp only [CoreMessage.wellTypedB, List.all_eq_true, bne_iff_ne] at h
      exact h
    apply congrArg Json.stringify
    apply congrArg Json.arr
    apply List.map_congr_left
    intro p hp
    rw [jsOr_eq_getD p.type "tool-result" (hall p hp)]

/-- Witness for C2 at a concrete well-typed tool message whose first
part omits the `type` tag. -/
theorem formatMessageContent_matches_spec_witness :
    demoToolMsg.wellTypedB = true ∧
    formatMessageContent demoToolMsg = formatMessageContentSpec demoToolMsg :=
  ⟨rfl, formatMessageContent_matches_spec demoToolMsg rfl⟩

/-! ## Ownership, validation, conflict recovery, sessions -/

/-- C3: a POST from an authenticated non-owner of an existing chat never
changes the store, and — once the request passes model and message
validation, which also write nothing — it is answered 401 before any
message is persisted; a DELETE from an authenticated non-owner is
answered 401 and leaves the store unchanged. -/
theorem nonowner_request_rejected (env : Env) (req : PostReq) (db : DB)
    (u : String) (chat : ChatRow)
    (hu : env.authUser = some u)
    (hc : db.chats.find? (fun c => c.id = req.id) = some chat)
    (hown : chat.user_id ≠ u) :
    ((POST env req db).db = db ∧
      ((models.find? fun mo => mo.id = req.modelId).isSome →
        (getMostRecentUserMessage req.messages).isSome →
        (POST env req db).outcome = HttpOutcome.response 401 "Unauthorized")) ∧
    (DELETE env (some req.id) db).outcome = HttpOutcome.response 401 "Unauthorized" ∧
    (DELETE env (some req.id) db).db = db := by
  have hD : DELETE env (some req.id) db = ⟨.response 401 "Unauthorized", db⟩ := by
    simp [DELETE, hu, hc, hown]
  refine ⟨⟨?_, ?_⟩, by rw [hD], by rw [hD]⟩
  · unfold POST
    rw [hu]
    cases models.find? fun mo => mo.id = req.modelId with
    | none => rfl
    | some md =>
      cases getMostRecentUserMessage req.messages with
      | none => rfl
      | some um =>
        rw [hc]
        simp [hown]
  · intro h1 h2
    unfold POST
    rw [hu]
    cases hm : models.find? fun mo => mo.id = req.modelId with
    | none => rw [hm] at h1; simp at h1
    | some md =>
      cases hum : getMostRecentUserMessage req.messages with
      | none => rw [hum] at h2; simp at h2
      | some um =>
        rw [hc]
        simp [hown]

/-- Witness for C3: user `intruder` against a chat owned by `owner`. -/
theorem nonowner_request_rejected_witness :
    ((POST intruderEnv intruderReq otherOwnerDb).db = otherOwnerDb ∧
      ((models.find? fun mo => mo.id = intruderReq.modelId).isSome →
        (getMostRecentUserMessage intruderReq.messages).isSome →
        (POST intruderEnv intruderReq otherOwnerDb).outcome =
          HttpOutcome.response 401 "Unauthorized")) ∧
    (DELETE intruderEnv (some intruderReq.id) otherOwnerDb).outcome =
      HttpOutcome.response 401 "Unauthorized" ∧
    (DELETE intruderEnv (some intruderReq.id) otherOwnerDb).db = otherOwnerDb :=
  nonowner_request_rejected intruderEnv intruderReq otherOwnerDb "intruder"
    ⟨"chat-1", "owner"⟩ rfl rfl (by decide)

/-- C4: an unrecognized model id is answered 404 with no store write, no
multiplexer activity and no provider call. -/
theorem unknown_model_rejected (env : Env) (req : PostReq) (db : DB) (u : String)
    (hu : env.authUser = some u)
    (hm : models.find? (fun mo => mo.id = req.modelId) = none) :
    (POST env req db).outcome = HttpOutcome.response 404 "Model not found" ∧
    (POST env req db).db = db ∧
    (POST env req db).modelCalls = 0 ∧
    (POST env req db).trace = [] := by
  have h : POST env req db = ⟨.response 404 "Model not found", db, [], 0⟩ := by
    simp [POST, hu, hm]
  rw [h]
  exact ⟨rfl, rfl, rfl, rfl⟩

/-- Witness for C4: `modelId = "nonexistent"` against a populated store. -/
theorem unknown_model_rejected_witness :
    (POST badModelEnv badModelReq otherOwnerDb).outcome =
      HttpOutcome.response 404 "Model not found" ∧
    (POST badModelEnv badModelReq otherOwnerDb).db = otherOwnerDb ∧
    (POST badModelEnv badModelReq otherOwnerDb).modelCalls = 0 ∧
    (POST badModelEnv badModelReq otherOwnerDb).trace = [] :=
  unknown_model_rejected badModelEnv badModelReq otherOwnerDb "u1" rfl rfl

/-- C8: when the chat was absent at lookup but `saveChat` raises the
chat-id conflict, the handler neither rethrows nor returns an error
response: the catch persists the user message under the existing chat id
and the request completes (falling through without a response object). -/
theorem chat_conflict_recovery (env : Env) (req : PostReq) (db : DB) (u : String)
    (md : ModelDef) (um : CoreMessage)
    (hu : env.authUser = some u)
    (hm : models.find? (fun mo => mo.id = req.modelId) = some md)
    (hum : getMostRecentUserMessage req.messages = some um)
    (hc : db.chats.find? (fun c => c.id = req.id) = none)
    (hconf : env.saveChatConflicts = true) :
    (POST env req db).outcome = HttpOutcome.noResponse ∧
    (POST env req db).db.messages = db.messages ++ [userMessageRow env req.id um] ∧
    (POST env req db).db.chats = db.chats := by
  have h : POST env req db =
      ⟨.noResponse, ⟨db.chats, db.messages ++ [userMessageRow env req.id um]⟩, [], 0⟩ := by
    simp [POST, hu, hm, hum, hc, hconf]
  rw [h]
  exact ⟨rfl, rfl, rfl⟩

/-- Witness for C8 at a concrete conflicting run against an empty store. -/
theorem chat_conflict_recovery_witness :
    (POST recoveryEnv recoveryReq ⟨[], []⟩).outcome = HttpOutcome.noResponse ∧
    (POST recoveryEnv recoveryReq ⟨[], []⟩).db.messages =
      [] ++ [userMessageRow recoveryEnv recoveryReq.id
              (CoreMessage.user (Sum.inl "hi again"))] ∧
    (POST recoveryEnv recoveryReq ⟨[], []⟩).db.chats = [] :=
  chat_conflict_recovery recoveryEnv recoveryReq ⟨[], []⟩ "u2"
    ⟨"gpt-4o-mini", "gpt-4o-mini"⟩ (CoreMessage.user (Sum.inl "hi again"))
    rfl rfl rfl rfl rfl

/-- C9 (code evidence): with no valid session `getUser()` throws before
the try block of either handler, so the exception escapes the handler
instead of the documented 401 response; the `if (!user) return 401`
branch of the POST source is unreachable. -/
theorem no_session_exception :
    (POST noSessionEnv noSessionReq ⟨[], []⟩).outcome =
      HttpOutcome.thrown "Unauthorized" ∧
    (DELETE noSessionEnv (some "chat-9") ⟨[], []⟩).outcome =
      HttpOutcome.thrown "Unauthorized" ∧
    (POST noSessionEnv noSessionReq ⟨[], []⟩).outcome ≠
      HttpOutcome.response 401 "Unauthorized" ∧
    (DELETE noSessionEnv (some "chat-9") ⟨[], []⟩).outcome ≠
      HttpOutcome.response 401 "Unauthorized" :=
  ⟨rfl, rfl, by decide, by decide⟩

/-! ## The step bound -/

theorem genRoundsAux_le (behavior : Nat → ModelRound) (fuel done : Nat) :
    genRoundsAux behavior fuel done ≤ fuel + done := by
  induction fuel generalizing done with
  | zero => simp [genRoundsAux]
  | succ n ih =>
    simp only [genRoundsAux]
    split
    · omega
    · have h := ih (done + 1)
      omega

/-- C5: for any model behavior, including one that requests tool calls
on every round, one turn with the step bound the route passes
(`maxSteps: 5`) performs at most 5 generate rounds. -/
theorem generation_step_bound (behavior : Nat → ModelRound) :
    genRounds behavior routeMaxSteps ≤ 5 := by
  have h := genRoundsAux_le behavior routeMaxSteps 0
  simpa [genRounds, routeMaxSteps] using h

/-! ## The createDocument tool -/

theorem docStreamLoop_spec (stream : List StreamDelta) (draft : String)
    (acts : List DocAction) :
    docStreamLoop draft acts stream =
      (draft ++ joinStrings (stream.filterMap StreamDelta.textOf),
       acts ++ (stream.filterMap StreamDelta.textOf).map (DocAction.emit "text-delta")) := by
  induction stream generalizing draft acts with
  | nil => simp [docStreamLoop, joinStrings]
  | cons d rest ih =>
    cases d with
    | textDelta s =>
      simp [docStreamLoop, StreamDelta.textOf, ih, joinStrings, String.append_assoc]
    | other ty =>
      simp [docStreamLoop, StreamDelta.textOf, ih]

/-- C6: a `createDocument` run emits, in this order, an `id` event with
the fresh document id, a `title` event equal to the requested title, a
`clear` event, one `text-delta` event per generated text delta in
generation order, and a `finish` event; after the nested generation
completes it persists one Document row under that id, owned by the
requesting user, whose content is the accumulated draft; and it returns
a confirmation payload whose fields are independent of the generated
stream (so it does not carry the generated content). -/
theorem createDocument_contract (userId newId title : String)
    (fullStream : List StreamDelta) (hu : userId ≠ "") :
    (createDocumentExecute userId newId title fullStream).1 =
      [DocAction.emit "id" newId, DocAction.emit "title" title,
       DocAction.emit "clear" ""] ++
      (fullStream.filterMap StreamDelta.textOf).map (DocAction.emit "text-delta") ++
      [DocAction.emit "finish" "",
       DocAction.persistDoc
         ⟨newId, title, joinStrings (fullStream.filterMap StreamDelta.textOf), userId⟩] ∧
    (createDocumentExecute userId newId title fullStream).2 =
      ⟨newId, title, "A document was created and is now visible to the user."⟩ := by
  constructor
  · simp [createDocumentExecute, docStreamLoop_spec, hu]
  · rfl

/-- Witness for C6 at a concrete stream with two text deltas and one
other stream part. -/
theorem createDocument_contract_witness :
    "u1" ≠ "" ∧
    ((createDocumentExecute "u1" "d1" "Plan" demoStream).1 =
      [DocAction.emit "id" "d1", DocAction.emit "title" "Plan",
       DocAction.emit "clear" ""] ++
      (demoStream.filterMap StreamDelta.textOf).map (DocAction.emit "text-delta") ++
      [DocAction.emit "finish" "",
       DocAction.persistDoc
         ⟨"d1", "Plan", joinStrings (demoStream.filterMap StreamDelta.textOf), "u1"⟩] ∧
    (createDocumentExecute "u1" "d1" "Plan" demoStream).2 =
      ⟨"d1", "Plan", "A document was created and is now visible to the user."⟩) :=
  ⟨by decide, createDocument_contract "u1" "d1" "Plan" demoStream (by decide)⟩

/-! ## The requestSuggestions tool -/

theorem suggestionLoop_spec (documentId : String) (elements : List SuggestionElement)
    (k : Nat) (acc : List SuggestionDraft) (acts : List SuggAction) :
    suggestionLoop documentId k acc acts elements =
      (acc ++ suggestionDraftsFrom documentId k elements,
       acts ++ (suggestionDraftsFrom documentId k elements).map SuggAction.emitSuggestion) := by
  induction elements generalizing k acc acts with
  | nil => simp [suggestionLoop, suggestionDraftsFrom]
  | cons e rest ih =>
    simp [suggestionLoop, suggestionDraftsFrom, ih]

theorem suggestionDraftsFrom_fields (documentId : String) (k : Nat)
    (elements : List SuggestionElement) :
    ∀ s ∈ suggestionDraftsFrom documentId k elements,
      s.isResolved = false ∧ s.documentId = documentId := by
  induction elements generalizing k with
  | nil => simp [suggestionDraftsFrom]
  | cons e rest ih =>
    intro s hs
    rcases List.mem_cons.1 hs with h | h
    · rw [h]; exact ⟨rfl, rfl⟩
    · exact ih (k + 1) s h

/-- C7 (amended): when the document is absent, or its content is null or
empty, `requestSuggestions` returns an error payload and performs no
action; otherwise it processes every streamed element — the 5-element
limit is only an instruction in the generation prompt, not enforced by
the code — synthesizing for each a suggestion with a fresh per-call id
and `isResolved := false`, emitting it as a `suggestion` event
immediately and in order, then persisting all accumulated suggestions in
one single batch after the sequence completes, and returns a
confirmation payload. -/
theorem requestSuggestions_contract (userId now documentId : String)
    (document : DocumentRecord) (content : String)
    (elements : List SuggestionElement)
    (hc : document.content = some content) (hne : content ≠ "") (hu : userId ≠ "") :
    (requestSuggestionsExecute userId now documentId none elements =
      ([], Sum.inl "Document not found")) ∧
    (∀ d : DocumentRecord, d.content = none ∨ d.content = some "" →
      requestSuggestionsExecute userId now documentId (some d) elements =
        ([], Sum.inl "Document not found")) ∧
    (requestSuggestionsExecute userId now documentId (some document) elements).1 =
      (suggestionDrafts documentId elements).map SuggAction.emitSuggestion ++
      [SuggAction.persistBatch ((suggestionDrafts documentId elements).map fun s =>
        ⟨s.originalText, s.suggestedText, s.description, s.id, s.documentId, s.isResolved,
         userId, now, document.created_at⟩)] ∧
    (∀ s ∈ suggestionDrafts documentId elements,
      s.isResolved = false ∧ s.documentId = documentId) ∧
    (requestSuggestionsExecute userId now documentId (some document) elements).2 =
      Sum.inr ⟨documentId, document.title,
               "Suggestions have been added to the document"⟩ := by
  refine ⟨rfl, ?_, ?_, suggestionDraftsFrom_fields documentId 0 elements, ?_⟩
  · intro d hd
    rcases hd with h | h <;> simp [requestSuggestionsExecute, h]
  · simp [requestSuggestionsExecute, hc, hne, suggestionLoop_spec, suggestionDrafts, hu]
  · simp [requestSuggestionsExecute, hc, hne, suggestionLoop_spec]

/-- Witness for C7 at a stored document with three streamed elements. -/
theorem requestSuggestions_contract_witness :
    demoDoc.content = some "Some text." ∧ "Some text." ≠ "" ∧ "u1" ≠ "" ∧
    ((requestSuggestionsExecute "u1" "t1" "doc-1" none threeElements =
      ([], Sum.inl "Document not found")) ∧
    (∀ d : DocumentRecord, d.content = none ∨ d.content = some "" →
      requestSuggestionsExecute "u1" "t1" "doc-1" (some d) threeElements =
        ([], Sum.inl "Document not found")) ∧
    (requestSuggestionsExecute "u1" "t1" "doc-1" (some demoDoc) threeElements).1 =
      (suggestionDrafts "doc-1" threeElements).map SuggAction.emitSuggestion ++
      [SuggAction.persistBatch ((suggestionDrafts "doc-1" threeElements).map fun s =>
        ⟨s.originalText, s.suggestedText, s.description, s.id, s.documentId, s.isResolved,
         "u1", "t1", demoDoc.created_at⟩)] ∧
    (∀ s ∈ suggestionDrafts "doc-1" threeElements,
      s.isResolved = false ∧ s.documentId = "doc-1") ∧
    (requestSuggestionsExecute "u1" "t1" "doc-1" (some demoDoc) threeElements).2 =
      Sum.inr ⟨"doc-1", demoDoc.title,
               "Suggestions have been added to the document"⟩) :=
  ⟨rfl, by decide, by decide,
   requestSuggestions_contract "u1" "t1" "doc-1" demoDoc "Some text." threeElements
     rfl (by decide) (by decide)⟩

/-- C7 counterexample: when the structured generation streams six
elements, the run emits six `suggestion` events and persists six rows —
the claimed 5-element cap is not enforced by the code. -/
theorem requestSuggestions_exceeds_cap :
    (((requestSuggestionsExecute "u1" "t1" "doc-1" (some demoDoc) sixElements).1.filter
        SuggAction.isEmit).length = 6) ∧
    ((suggestionDrafts "doc-1" sixElements).length = 6) := by
  constructor
  · rfl
  · rfl
